import Mathlib

/-!
Verification development for the Anthropic client of `langchaingo`
(`llms/anthropic/internal/anthropicclient/anthropicclient.go` and the
`llms` error type). Go code is shallowly embedded: structs become Lean
structures, pointer-receiver mutation becomes explicit state passing,
`error` returns become `Except`/`Option`, and the `net/http` header map
becomes a function from header names to optional values.
-/

namespace Spec2Proof

/-- Source constant `DefaultBaseURL`. -/
def DefaultBaseURL : String := "https://api.anthropic.com/v1"

/-- Source constant `DefaultAnthropicVersion`. -/
def DefaultAnthropicVersion : String := "2023-06-01"

/-- Source constant `defaultModel`. -/
def defaultModel : String := "claude-1.3"

/-- Embedding of the Go struct `Client`. The `httpClient Doer` interface
field is kept abstract in the type parameter `D`: the client code never
inspects it, it only forwards requests to it. -/
structure Client (D : Type) where
  token : String
  Model : String
  baseURL : String
  vertexProjectID : String
  vertexLocation : String
  httpClient : D
  anthropicVersion : String
  UseLegacyTextCompletionsAPI : Bool
deriving Repr, DecidableEq

/-- HTTP headers, embedding Go's `http.Header` map under `Set`/`Get`:
a finite map from header name to the single value stored by `Set`.
(The code only ever calls `Set` with fixed literal names, so MIME
canonicalization of names is irrelevant and not modelled.) -/
def Headers : Type := String → Option String

/-- A fresh request carries no headers. -/
def emptyHeaders : Headers := fun _ => none

/-- Embedding of `http.Header.Set`: replace the value stored for a name. -/
def headerSet (h : Headers) (k v : String) : Headers :=
  fun k2 => if k2 = k then some v else h k2

/-- Embedding of `Client.setHeaders` (anthropicclient.go lines 227-247):
always set `Content-Type`; `Authorization: Bearer <token>` in vertex mode
else `x-api-key`; `anthropic-version` from the configured version when
non-empty, else a mode-dependent default. -/
def setHeaders (D : Type) (c : Client D) (h : Headers) : Headers :=
  let h1 := headerSet h "Content-Type" "application/json"
  let h2 :=
    if c.vertexProjectID ≠ "" then
      headerSet h1 "Authorization" ("Bearer " ++ c.token)
    else
      headerSet h1 "x-api-key" c.token
  if c.anthropicVersion ≠ "" then
    headerSet h2 "anthropic-version" c.anthropicVersion
  else
    if c.vertexProjectID ≠ "" then
      headerSet h2 "anthropic-version" "vertex-2023-10-16"
    else
      headerSet h2 "anthropic-version" "2023-06-01"

/-- The URL-resolution prefix of `Client.do` (anthropicclient.go lines
250-262). In Go, `do` runs on a pointer receiver and assigns
`c.baseURL = DefaultBaseURL` when the base URL is empty in direct mode;
that mutation is embedded as the returned updated client. -/
def doResolveURL (D : Type) (c : Client D) (path : String) : Client D × String :=
  if c.vertexProjectID = "" then
    let c2 := if c.baseURL = "" then { c with baseURL := DefaultBaseURL } else c
    (c2, c2.baseURL ++ path)
  else
    (c, "https://" ++ c.vertexLocation ++ "-aiplatform.googleapis.com/v1/projects/"
        ++ c.vertexProjectID ++ "/locations/" ++ c.vertexLocation
        ++ "/publishers/anthropic/models/" ++ c.Model ++ ":streamRawPredict")

/-- The outgoing request assembled by `Client.do` before it is handed to
the injected `httpClient`. -/
structure HttpRequest where
  method : String
  url : String
  headers : Headers
  body : String

/-- Embedding of `Client.do` up to the hand-off to `c.httpClient.Do`:
resolve the URL (possibly defaulting the stored base URL), build the
POST request carrying the payload, and set the headers. Returns the
(possibly mutated) client together with the request. -/
def doRequest (D : Type) (c : Client D) (path : String) (payloadBytes : String) :
    Client D × HttpRequest :=
  let r := doResolveURL D c path
  (r.1, { method := "POST", url := r.2,
          headers := setHeaders D r.1 emptyHeaders, body := payloadBytes })

/-- A direct-mode client with an empty base URL, used as a concrete
configuration in counterexamples and witnesses. -/
def cEmptyBase : Client Unit :=
  { token := "tok", Model := "claude-1.3", baseURL := "", vertexProjectID := "",
    vertexLocation := "", httpClient := (), anthropicVersion := "",
    UseLegacyTextCompletionsAPI := false }

/-- A vertex-mode client with a non-empty project ID, used as a concrete
configuration in witnesses. -/
def cVertex : Client Unit :=
  { token := "tok", Model := "m1", baseURL := "https://ignored.example",
    vertexProjectID := "proj", vertexLocation := "loc", httpClient := (),
    anthropicVersion := "", UseLegacyTextCompletionsAPI := false }

/-- C2 (counterexample): `do` is not mutation-free. On a client whose
`vertexProjectID` and `baseURL` are both empty, a single call to `do`
changes the client: it stores `DefaultBaseURL` into the `baseURL` field. -/
theorem C2_do_counterexample :
    (doRequest Unit cEmptyBase "/v1/messages" "p").1 ≠ cEmptyBase ∧
    (doRequest Unit cEmptyBase "/v1/messages" "p").1.baseURL = DefaultBaseURL := by
  decide

/-- C2 (amended): a call to `do` mutates no field of the Client except
`baseURL`; `baseURL` is rewritten (to `DefaultBaseURL`) exactly when the
client is in direct mode with an empty base URL, and is preserved
otherwise; moreover the client reached after one call is a fixed point,
so every later call leaves the Client unchanged. -/
theorem C2_do_mutates_only_empty_baseURL (D : Type) (c : Client D)
    (path payload path2 payload2 : String) :
    ((doRequest D c path payload).1.token = c.token ∧
     (doRequest D c path payload).1.Model = c.Model ∧
     (doRequest D c path payload).1.vertexProjectID = c.vertexProjectID ∧
     (doRequest D c path payload).1.vertexLocation = c.vertexLocation ∧
     (doRequest D c path payload).1.anthropicVersion = c.anthropicVersion ∧
     (doRequest D c path payload).1.httpClient = c.httpClient ∧
     (doRequest D c path payload).1.UseLegacyTextCompletionsAPI
       = c.UseLegacyTextCompletionsAPI) ∧
    (if c.vertexProjectID = "" ∧ c.baseURL = ""
      then (doRequest D c path payload).1.baseURL = DefaultBaseURL
      else (doRequest D c path payload).1.baseURL = c.baseURL) ∧
    (doRequest D (doRequest D c path payload).1 path2 payload2).1
      = (doRequest D c path payload).1 := by
  by_cases hv : c.vertexProjectID = "" <;> by_cases hb : c.baseURL = "" <;>
    simp [doRequest, doResolveURL, hv, hb, DefaultBaseURL]

/-- C3: in vertex mode (non-empty `vertexProjectID`) `do` builds the
Google `streamRawPredict` URL from location, project and model, and
neither the `path` argument nor the `baseURL` field influences it. -/
theorem C3_vertex_url_ignores_path_and_base (D : Type) (c : Client D)
    (path payload path2 payload2 base2 : String) (h : c.vertexProjectID ≠ "") :
    (doRequest D c path payload).2.url =
      "https://" ++ c.vertexLocation ++ "-aiplatform.googleapis.com/v1/projects/"
        ++ c.vertexProjectID ++ "/locations/" ++ c.vertexLocation
        ++ "/publishers/anthropic/models/" ++ c.Model ++ ":streamRawPredict" ∧
    (doRequest D { c with baseURL := base2 } path2 payload2).2.url =
      (doRequest D c path payload).2.url := by
  constructor <;> simp [doRequest, doResolveURL, h]

/-- C3 witness: the vertex-mode client `cVertex` with project `proj`,
location `loc` and model `m1`. -/
theorem C3_vertex_url_witness :
    cVertex.vertexProjectID ≠ "" ∧
    ((doRequest Unit cVertex "/v1/messages" "p").2.url =
      "https://" ++ cVertex.vertexLocation
        ++ "-aiplatform.googleapis.com/v1/projects/"
        ++ cVertex.vertexProjectID ++ "/locations/" ++ cVertex.vertexLocation
        ++ "/publishers/anthropic/models/" ++ cVertex.Model ++ ":streamRawPredict" ∧
     (doRequest Unit { cVertex with baseURL := "https://other.example" }
        "/other/path" "q").2.url = (doRequest Unit cVertex "/v1/messages" "p").2.url) :=
  ⟨by decide,
   C3_vertex_url_ignores_path_and_base Unit cVertex "/v1/messages" "p"
     "/other/path" "q" "https://other.example" (by decide)⟩

/-- C4: `setHeaders` always sets `Content-Type: application/json`; it sets
`Authorization: Bearer <token>` exactly in vertex mode and `x-api-key:
<token>` exactly in direct mode (leaving the other header untouched); and
it sets `anthropic-version` to the configured version when non-empty, else
to `vertex-2023-10-16` in vertex mode, else to `2023-06-01`. -/
theorem C4_setHeaders_policy (D : Type) (c : Client D) (h : Headers) :
    setHeaders D c h "Content-Type" = some "application/json" ∧
    (if c.vertexProjectID = "" then
        setHeaders D c h "x-api-key" = some c.token ∧
        setHeaders D c h "Authorization" = h "Authorization"
      else
        setHeaders D c h "Authorization" = some ("Bearer " ++ c.token) ∧
        setHeaders D c h "x-api-key" = h "x-api-key") ∧
    setHeaders D c h "anthropic-version" =
      some (if c.anthropicVersion ≠ "" then c.anthropicVersion
            else if c.vertexProjectID ≠ "" then "vertex-2023-10-16"
            else "2023-06-01") := by
  by_cases hv : c.vertexProjectID = "" <;> by_cases ha : c.anthropicVersion = "" <;>
    simp [setHeaders, headerSet, hv, ha]

/-- C9: two clients identical except for `anthropicVersion` yield the same
request URL from `do`, and their request headers agree on every header
name other than `anthropic-version`. -/
theorem C9_version_only_affects_version_header (D : Type) (c : Client D)
    (v1 v2 path payload k : String) (hk : k ≠ "anthropic-version") :
    (doRequest D { c with anthropicVersion := v1 } path payload).2.url =
      (doRequest D { c with anthropicVersion := v2 } path payload).2.url ∧
    (doRequest D { c with anthropicVersion := v1 } path payload).2.headers k =
      (doRequest D { c with anthropicVersion := v2 } path payload).2.headers k := by
  by_cases hv : c.vertexProjectID = "" <;> by_cases hb : c.baseURL = "" <;>
    by_cases h1 : v1 = "" <;> by_cases h2 : v2 = "" <;>
      simp [doRequest, doResolveURL, setHeaders, headerSet, hv, hb, h1, h2, hk]

/-- C9 witness: changing the version from `custom-v` to empty on a
direct-mode client leaves the URL and the `x-api-key` header unchanged. -/
theorem C9_version_only_affects_version_header_witness :
    ("x-api-key" : String) ≠ "anthropic-version" ∧
    ((doRequest Unit { cEmptyBase with anthropicVersion := "custom-v" }
        "/v1/messages" "p").2.url =
      (doRequest Unit { cEmptyBase with anthropicVersion := "" }
        "/v1/messages" "p").2.url ∧
     (doRequest Unit { cEmptyBase with anthropicVersion := "custom-v" }
        "/v1/messages" "p").2.headers "x-api-key" =
      (doRequest Unit { cEmptyBase with anthropicVersion := "" }
        "/v1/messages" "p").2.headers "x-api-key") :=
  ⟨by decide,
   C9_version_only_affects_version_header Unit cEmptyBase "custom-v" ""
     "/v1/messages" "p" "x-api-key" (by decide)⟩

/-! ### JSON values and `encoding/json` unmarshalling

`decodeError` calls `json.Unmarshal(respBody, &errResp)` with
`errResp : errorMessage`. The relevant stdlib behaviour is embedded:
a strict JSON parser producing a generic value, then decoding of that
value into the `errorMessage` struct (unknown object keys ignored, key
match case-insensitive on the `json` tag, `null` leaves a field at its
zero value, any type mismatch or syntax error makes `Unmarshal` return
an error). Lone UTF-16 surrogate escapes are not given Go's replacement
character; no claim depends on them. -/

/-- A parsed JSON value. Numbers keep their raw literal text: nothing in
the client inspects numeric values of error bodies. -/
inductive Json where
  | null
  | bool (b : Bool)
  | num (raw : String)
  | str (s : String)
  | arr (elems : List Json)
  | obj (fields : List (String × Json))
deriving Repr, Inhabited

/-- The `{` character. -/
def lbrace : Char := Char.ofNat 123

/-- The `}` character. -/
def rbrace : Char := Char.ofNat 125

/-- The `"` character. -/
def dquote : Char := Char.ofNat 34

/-- The `\` character. -/
def bslash : Char := Char.ofNat 92

/-- JSON whitespace: space, tab, line feed, carriage return. -/
def isJsonWs (c : Char) : Bool :=
  c = ' ' ∨ c = Char.ofNat 9 ∨ c = Char.ofNat 10 ∨ c = Char.ofNat 13

/-- Drop leading JSON whitespace. -/
def skipWs : List Char → List Char
  | [] => []
  | c :: rest => if isJsonWs c then skipWs rest else c :: rest

/-- Value of a hexadecimal digit. -/
def hexVal (c : Char) : Option Nat :=
  if '0' ≤ c ∧ c ≤ '9' then some (c.toNat - '0'.toNat)
  else if 'a' ≤ c ∧ c ≤ 'f' then some (c.toNat - 'a'.toNat + 10)
  else if 'A' ≤ c ∧ c ≤ 'F' then some (c.toNat - 'A'.toNat + 10)
  else none

/-- Translation of a single-character JSON string escape. -/
def escapeChar (c : Char) : Option Char :=
  if c = dquote then some dquote
  else if c = bslash then some bslash
  else if c = '/' then some '/'
  else if c = 'b' then some (Char.ofNat 8)
  else if c = 'f' then some (Char.ofNat 12)
  else if c = 'n' then some (Char.ofNat 10)
  else if c = 'r' then some (Char.ofNat 13)
  else if c = 't' then some (Char.ofNat 9)
  else none

/-- Parse the remainder of a JSON string literal (the opening quote has
been consumed); returns the decoded string and the rest of the input. -/
def parseStringRest : Nat → List Char → Option (String × List Char)
  | 0, _ => none
  | _, [] => none
  | fuel + 1, c :: rest =>
    if c = dquote then some ("", rest)
    else if c = bslash then
      match rest with
      | [] => none
      | e :: rest2 =>
        if e = 'u' then
          match rest2 with
          | a :: b :: c3 :: d :: rest3 =>
            match hexVal a, hexVal b, hexVal c3, hexVal d with
            | some ha, some hb, some hc, some hd =>
              (parseStringRest fuel rest3).map (fun p =>
                (String.mk [Char.ofNat (((ha * 16 + hb) * 16 + hc) * 16 + hd)] ++ p.1,
                 p.2))
            | _, _, _, _ => none
          | _ => none
        else
          match escapeChar e with
          | none => none
          | some ec =>
            (parseStringRest fuel rest2).map (fun p => (String.mk [ec] ++ p.1, p.2))
    else if c.toNat < 32 then none
    else (parseStringRest fuel rest).map (fun p => (String.mk [c] ++ p.1, p.2))

/-- Split off a maximal run of decimal digits. -/
def digitSpan : List Char → List Char × List Char
  | [] => ([], [])
  | c :: rest =>
    if c.isDigit then
      let p := digitSpan rest
      (c :: p.1, p.2)
    else ([], c :: rest)

/-- Integer part of a JSON number: `0`, or a nonzero digit followed by
digits (leading zeros are a syntax error). -/
def parseIntPart : List Char → Option (List Char × List Char)
  | [] => none
  | c :: rest =>
    if c = '0' then some ([c], rest)
    else if c.isDigit then
      let p := digitSpan rest
      some (c :: p.1, p.2)
    else none

/-- Optional fraction part of a JSON number. -/
def parseFracPart : List Char → Option (List Char × List Char)
  | '.' :: rest =>
    match digitSpan rest with
    | ([], _) => none
    | (ds, r) => some ('.' :: ds, r)
  | cs => some ([], cs)

/-- Optional exponent part of a JSON number. -/
def parseExpPart : List Char → Option (List Char × List Char)
  | [] => some ([], [])
  | c :: rest =>
    if c = 'e' ∨ c = 'E' then
      let sr : List Char × List Char :=
        match rest with
        | [] => ([], [])
        | s :: r2 => if s = '+' ∨ s = '-' then ([s], r2) else ([], s :: r2)
      match digitSpan sr.2 with
      | ([], _) => none
      | (ds, r) => some (c :: (sr.1 ++ ds), r)
    else some ([], c :: rest)

/-- Parse a JSON number literal, keeping its raw text. -/
def parseNumber (cs : List Char) : Option (Json × List Char) :=
  let nr : List Char × List Char :=
    match cs with
    | [] => ([], [])
    | c :: r => if c = '-' then ([c], r) else ([], c :: r)
  match parseIntPart nr.2 with
  | none => none
  | some (ip, cs2) =>
    match parseFracPart cs2 with
    | none => none
    | some (fp, cs3) =>
      match parseExpPart cs3 with
      | none => none
      | some (ep, cs4) => some (.num (String.mk (nr.1 ++ ip ++ fp ++ ep)), cs4)

mutual

/-- Parse one JSON value. `fuel` bounds the recursion depth; callers pass
more fuel than any input of that length can consume. -/
def parseValue : Nat → List Char → Option (Json × List Char)
  | 0, _ => none
  | fuel + 1, cs =>
    match skipWs cs with
    | [] => none
    | 'n' :: 'u' :: 'l' :: 'l' :: rest => some (.null, rest)
    | 't' :: 'r' :: 'u' :: 'e' :: rest => some (.bool true, rest)
    | 'f' :: 'a' :: 'l' :: 's' :: 'e' :: rest => some (.bool false, rest)
    | c :: rest =>
      if c = dquote then (parseStringRest fuel rest).map (fun p => (.str p.1, p.2))
      else if c = lbrace then parseObject fuel rest
      else if c = '[' then parseArray fuel rest
      else if c = '-' ∨ c.isDigit then parseNumber (c :: rest)
      else none

/-- Parse a JSON object body (after the opening brace). -/
def parseObject : Nat → List Char → Option (Json × List Char)
  | 0, _ => none
  | fuel + 1, cs =>
    match skipWs cs with
    | [] => none
    | c :: rest =>
      if c = rbrace then some (.obj [], rest)
      else parseMembers fuel [] (c :: rest)

/-- Parse the members of a JSON object (at least one), in source order. -/
def parseMembers : Nat → List (String × Json) → List Char →
    Option (Json × List Char)
  | 0, _, _ => none
  | fuel + 1, acc, cs =>
    match skipWs cs with
    | [] => none
    | c :: rest =>
      if c = dquote then
        match parseStringRest fuel rest with
        | none => none
        | some (key, rest2) =>
          match skipWs rest2 with
          | ':' :: rest3 =>
            match parseValue fuel rest3 with
            | none => none
            | some (v, rest4) =>
              match skipWs rest4 with
              | [] => none
              | c2 :: rest5 =>
                if c2 = ',' then parseMembers fuel (acc ++ [(key, v)]) rest5
                else if c2 = rbrace then some (.obj (acc ++ [(key, v)]), rest5)
                else none
          | _ => none
      else none

/-- Parse a JSON array body (after the opening bracket). -/
def parseArray : Nat → List Char → Option (Json × List Char)
  | 0, _ => none
  | fuel + 1, cs =>
    match skipWs cs with
    | [] => none
    | c :: rest =>
      if c = ']' then some (.arr [], rest)
      else parseArrayElems fuel [] (c :: rest)

/-- Parse the elements of a JSON array (at least one), in source order. -/
def parseArrayElems : Nat → List Json → List Char → Option (Json × List Char)
  | 0, _, _ => none
  | fuel + 1, acc, cs =>
    match parseValue fuel cs with
    | none => none
    | some (v, rest) =>
      match skipWs rest with
      | [] => none
      | c :: rest2 =>
        if c = ',' then parseArrayElems fuel (acc ++ [v]) rest2
        else if c = ']' then some (.arr (acc ++ [v]), rest2)
        else none

end

/-- Parse a whole JSON document: one value, possibly surrounded by
whitespace, with nothing after it. The fuel is generous: the parser
spends at most a few fuel units per input character. -/
def jsonParse (s : String) : Option Json :=
  let cs := s.data
  match parseValue (8 * cs.length + 16) cs with
  | none => none
  | some (v, rest) => if (skipWs rest).isEmpty then some v else none

/-- The inner anonymous struct of `errorMessage` in the source: the
provider error envelope's `error` object, json tags `message`/`type`. -/
structure errorMessageError where
  Message : String := ""
  «Type» : String := ""
deriving Repr, DecidableEq, Inhabited

/-- Embedding of the Go struct `errorMessage` (anthropicclient.go lines
278-283): the provider error envelope. -/
structure errorMessage where
  Error : errorMessageError := {}
deriving Repr, DecidableEq, Inhabited

/-- Lower-case an ASCII letter (identity on everything else). -/
def lowerAscii (c : Char) : Char :=
  if 'A' ≤ c ∧ c ≤ 'Z' then Char.ofNat (c.toNat + 32) else c

/-- Case folding used for json key matching (`encoding/json` matches
struct tags case-insensitively). The tags here are ASCII, so ASCII
folding coincides with Go's folding on every key that can match. -/
def keyFold (s : String) : String := String.mk (s.data.map lowerAscii)

/-- Decode a JSON value into a Go `string` field currently holding `cur`:
a JSON string replaces it, `null` leaves it, anything else is a type
error. -/
def unmarshalStringField (cur : String) : Json → Option String
  | .str s => some s
  | .null => some cur
  | _ => none

/-- Decode object members into the envelope's inner struct, in source
order: keys matching a json tag (case-insensitively) set that field,
unknown keys are ignored, later duplicates overwrite. -/
def unmarshalErrorFields :
    errorMessageError → List (String × Json) → Option errorMessageError
  | acc, [] => some acc
  | acc, (k, v) :: rest =>
    if keyFold k = "message" then
      match unmarshalStringField acc.Message v with
      | none => none
      | some s => unmarshalErrorFields { acc with Message := s } rest
    else if keyFold k = "type" then
      match unmarshalStringField acc.«Type» v with
      | none => none
      | some s => unmarshalErrorFields { acc with «Type» := s } rest
    else unmarshalErrorFields acc rest

/-- Decode a JSON value into the envelope's inner struct field. -/
def unmarshalErrorValue (cur : errorMessageError) :
    Json → Option errorMessageError
  | .null => some cur
  | .obj fields => unmarshalErrorFields cur fields
  | _ => none

/-- Decode the top-level object members into `errorMessage`. -/
def unmarshalTopFields :
    errorMessage → List (String × Json) → Option errorMessage
  | acc, [] => some acc
  | acc, (k, v) :: rest =>
    if keyFold k = "error" then
      match unmarshalErrorValue acc.Error v with
      | none => none
      | some e => unmarshalTopFields { acc with Error := e } rest
    else unmarshalTopFields acc rest

/-- Embedding of `json.Unmarshal(respBody, &errResp)` for
`errResp : errorMessage`: `none` exactly when `Unmarshal` returns a
non-nil error (syntax error, trailing data, or type mismatch on a
decoded field). -/
def unmarshalErrorMessage (body : String) : Option errorMessage :=
  match jsonParse body with
  | none => none
  | some .null => some {}
  | some (.obj fields) => unmarshalTopFields {} fields
  | some _ => none

/-- Embedding of the Go struct `llms.LLMError`. `RawResponse []byte` is
carried as the body string it was read from; `StatusCode int` is carried
as `Nat` (HTTP status codes are non-negative). -/
structure LLMError where
  Message : String := ""
  ErrorMessage : String := ""
  StatusCode : Nat := 0
  ErrorType : String := ""
  RawResponse : String := ""
deriving Repr, DecidableEq, Inhabited

/-- The two shapes of error value `decodeError` can return once the body
has been read: the plain `errors.New(msg)` fallback, or the structured
`*llms.LLMError`. -/
inductive DecodedError where
  | plain (msg : String)
  | llmError (e : LLMError)
deriving Repr, DecidableEq, Inhabited

/-- The message reported by the returned error value (`LLMError.Error()`
returns its `Message` field). -/
def errorText : DecodedError → String
  | .plain m => m
  | .llmError e => e.Message

/-- Embedding of `Client.decodeError` (anthropicclient.go lines 285-306)
after the body has been successfully read: compose the generic message,
try to unmarshal the provider envelope, and return either the plain
fallback error or the structured `LLMError`. -/
def decodeError (statusCode : Nat) (respBody : String) : DecodedError :=
  let msg := "API returned unexpected status code: " ++ toString statusCode
  match unmarshalErrorMessage respBody with
  | none => .plain msg
  | some errResp =>
    .llmError
      { Message := msg ++ ": " ++ errResp.Error.Message
        StatusCode := statusCode
        ErrorType := errResp.Error.«Type»
        ErrorMessage := errResp.Error.Message
        RawResponse := respBody }

/-- The exact 429 body used in the spec's example. -/
def body429 : String :=
  "\x7b\"error\":\x7b\"message\":\"rate limited\",\"type\":\"rate_limit_error\"\x7d\x7d"

/-- The envelope that `body429` unmarshals to. -/
def envRateLimited : errorMessage :=
  { Error := { Message := "rate limited", «Type» := "rate_limit_error" } }

/-- String append is associative (on the underlying character lists). -/
theorem stringAppendAssoc (a b c : String) : a ++ b ++ c = a ++ (b ++ c) := by
  apply String.ext
  simp [String.data_append, List.append_assoc]

/-- C1 (counterexample): at status 429 with the envelope body `body429`
(provider message "rate limited"), the message composed by `decodeError`
is "API returned unexpected status code: 429: rate limited" — not the
claimed "unexpected status code: 429: rate limited". -/
theorem C1_message_counterexample :
    unmarshalErrorMessage body429 = some envRateLimited ∧
    errorText (decodeError 429 body429)
      ≠ "unexpected status code: 429: rate limited" ∧
    errorText (decodeError 429 body429)
      = "API returned unexpected status code: 429: rate limited" := by
  decide

/-- C1 (amended): for every status code and body that unmarshals as the
provider error envelope, `decodeError` returns a structured `LLMError`
whose composed `Message` is "API returned unexpected status code:
<code>: <provider message>", and whose `StatusCode`, `ErrorType`,
`ErrorMessage` and `RawResponse` fields carry the numeric status code,
the envelope's type string, the envelope's message string and the raw
body. -/
theorem C1_decodeError_envelope (code : Nat) (body : String)
    (env : errorMessage) (h : unmarshalErrorMessage body = some env) :
    decodeError code body = .llmError
      { Message := "API returned unexpected status code: " ++ toString code
          ++ ": " ++ env.Error.Message
        StatusCode := code
        ErrorType := env.Error.«Type»
        ErrorMessage := env.Error.Message
        RawResponse := body } := by
  simp [decodeError, h]

/-- C1 witness: the amended statement instantiated at status 429 and the
spec's rate-limit body. -/
theorem C1_decodeError_envelope_witness :
    unmarshalErrorMessage body429 = some envRateLimited ∧
    decodeError 429 body429 = .llmError
      { Message := "API returned unexpected status code: " ++ toString 429
          ++ ": " ++ envRateLimited.Error.Message
        StatusCode := 429
        ErrorType := envRateLimited.Error.«Type»
        ErrorMessage := envRateLimited.Error.Message
        RawResponse := body429 } :=
  ⟨by decide, C1_decodeError_envelope 429 body429 envRateLimited (by decide)⟩

/-- C5: on status 429 with body
`{"error":{"message":"rate limited","type":"rate_limit_error"}}`,
`decodeError` returns an `LLMError` with `StatusCode` 429, `ErrorType`
"rate_limit_error", `ErrorMessage` "rate limited" and `RawResponse`
equal to the exact body bytes. -/
theorem C5_decodeError_429 :
    decodeError 429 body429 = .llmError
      { Message := "API returned unexpected status code: 429: rate limited"
        StatusCode := 429
        ErrorType := "rate_limit_error"
        ErrorMessage := "rate limited"
        RawResponse := body429 } := by
  decide

/-- C6: when the (successfully read) body does not unmarshal as JSON,
`decodeError` returns the plain error that carries only the generic
message — "API returned " followed by "unexpected status code: <code>" —
with no raw-body bytes, no provider error type and no provider message
populated. -/
theorem C6_decodeError_unparsable (code : Nat) (body : String)
    (h : unmarshalErrorMessage body = none) :
    decodeError code body =
      .plain ("API returned " ++ ("unexpected status code: " ++ toString code)) := by
  unfold decodeError
  rw [h]
  have h2 : ("API returned unexpected status code: " : String)
      = "API returned " ++ "unexpected status code: " := rfl
  rw [h2, stringAppendAssoc]

/-- C6 witness: a 503 response whose body is not JSON. -/
theorem C6_decodeError_unparsable_witness :
    unmarshalErrorMessage "not json" = none ∧
    decodeError 503 "not json" =
      .plain ("API returned " ++ ("unexpected status code: " ++ toString 503)) :=
  ⟨by decide, C6_decodeError_unparsable 503 "not json" (by decide)⟩

/-! ### Request builder: tools, tool choice, `CreateMessage`

The `llms.Tool`/`llms.FunctionDefinition` structs, the anthropic `Tool`,
`ToolChoice` and `messagePayload` structs and the `ChatMessage` and
`MessageResponsePayload` types are declared outside the provided source
files; their fields are reconstructed exactly from their uses in
`anthropicclient.go` (tool translation, the `ToolChoice` literals, and
the `messagePayload` literal in `CreateMessage`). Values the client only
passes through untouched (chat messages, the parameter-schema document,
the response payload) are carried opaquely. -/

namespace llms

/-- Embedding of `llms.FunctionDefinition` as used by the client:
`Name`, `Description`, and the opaque `Parameters` schema document
(carried as its serialized form; the client never inspects it). -/
structure FunctionDefinition where
  Name : String
  Description : String
  Parameters : String
deriving Repr, DecidableEq

/-- Embedding of `llms.Tool`: a type tag and an optional (in Go, possibly
nil pointer) function definition. -/
structure Tool where
  «Type» : String
  Function : Option FunctionDefinition
deriving Repr, DecidableEq

end llms

/-- Embedding of the anthropic `Tool` struct as built by `handleTools`:
name, description and the pass-through input schema. -/
structure Tool where
  Name : String
  Description : String
  InputSchema : String
deriving Repr, DecidableEq

/-- Embedding of the anthropic `ToolChoice` struct as built by
`handleToolChoice`: a type tag and (for a named tool) the tool name. -/
structure ToolChoice where
  «Type» : String := ""
  Name : String := ""
deriving Repr, DecidableEq

/-- The dynamic type of the `ToolChoice any` field of `MessageRequest`:
a bare string, an `llms.Tool` value, or any other dynamic type
(including a nil interface), which the `switch` in `handleToolChoice`
sends to its `default` branch. -/
inductive ToolChoiceValue where
  | str (s : String)
  | tool (t : llms.Tool)
  | other
deriving Repr, DecidableEq

/-- A chat message, passed through by `CreateMessage` untouched; carried
opaquely. -/
structure ChatMessage where
  raw : String
deriving Repr, DecidableEq

/-- The messages-API response payload, which `CreateMessage` forwards to
its caller unchanged; carried opaquely. -/
structure MessageResponsePayload where
  raw : String
deriving Repr, DecidableEq

/-- Embedding of the Go struct `MessageRequest` (anthropicclient.go lines
145-161). `float64` sampling parameters are carried as rationals; the
non-serialized `StreamingFunc` callback is not part of the payload data
and is omitted. -/
structure MessageRequest where
  Model : String
  Messages : List ChatMessage
  System : String
  Temperature : Rat
  MaxTokens : Int
  TopP : Rat
  TopK : Int
  Tools : List llms.Tool
  ToolChoice : ToolChoiceValue
  StopWords : List String
  Stream : Bool
deriving Repr, DecidableEq

/-- Embedding of the `messagePayload` struct literal built in
`CreateMessage`: the wire payload for the messages API. The Go field
`ToolChoice *ToolChoice` with tag `omitempty` is an option: `none` is
the nil pointer, which the serializer omits from the JSON. -/
structure messagePayload where
  Model : String
  Messages : List ChatMessage
  System : String
  Temperature : Rat
  MaxTokens : Int
  StopWords : List String
  TopP : Rat
  Stream : Bool
  TopK : Int
  Tools : List Tool
  ToolChoice : Option ToolChoice
deriving Repr, DecidableEq

/-- Whether the serialized payload contains a `tool_choice` field: with
`omitempty`, a nil `*ToolChoice` is omitted. -/
def toolChoiceEmitted (p : messagePayload) : Bool :=
  p.ToolChoice.isSome

/-- Embedding of `handleToolChoice` (anthropicclient.go lines 163-180):
a string becomes a type-tagged choice, an `llms.Tool` with a nil
function is an error, one with a function becomes a named choice, and
any other dynamic type yields the Go pair `(nil, nil)`, i.e. no choice
and no error. -/
def handleToolChoice : ToolChoiceValue → Except String (Option ToolChoice)
  | .str s => .ok (some { «Type» := s })
  | .tool t =>
    match t.Function with
    | none => .error "tool choice function is nil"
    | some f => .ok (some { «Type» := t.«Type», Name := f.Name })
  | .other => .ok none

/-- Embedding of `handleTools` (anthropicclient.go lines 182-195):
translate each tool to its anthropic shape, failing on the first tool
whose `Function` is nil (with the source's message, which reuses the
tool-choice wording). -/
def handleTools : List llms.Tool → Except String (List Tool)
  | [] => .ok []
  | tool :: rest =>
    match tool.Function with
    | none => .error "tool choice function is nil"
    | some f =>
      match handleTools rest with
      | .error e => .error e
      | .ok ts =>
        .ok ({ Name := f.Name, Description := f.Description,
               InputSchema := f.Parameters } :: ts)

/-- The `messagePayload` literal built in `CreateMessage` from the
request, the translated tools and the translated tool choice. -/
def buildMessagePayload (r : MessageRequest) (tools : List Tool)
    (toolChoice : Option ToolChoice) : messagePayload :=
  { Model := r.Model, Messages := r.Messages, System := r.System,
    Temperature := r.Temperature, MaxTokens := r.MaxTokens,
    StopWords := r.StopWords, TopP := r.TopP, Stream := r.Stream,
    TopK := r.TopK, Tools := tools, ToolChoice := toolChoice }

/-- Embedding of `CreateMessage` (anthropicclient.go lines 198-225) up to
the network stage: translate the tool choice, translate the tools
(each failure returns that error and a nil result at once), then hand
the assembled payload to `send`, which stands for `c.createMessage` —
the stage that serializes the payload and performs the HTTP call on the
injected transport. `send` is a parameter, so a result that is the same
for every `send` was produced without issuing any HTTP request. -/
def CreateMessage (send : messagePayload → Except String MessageResponsePayload)
    (r : MessageRequest) : Except String MessageResponsePayload :=
  match handleToolChoice r.ToolChoice with
  | .error e => .error e
  | .ok toolChoice =>
    match handleTools r.Tools with
    | .error e => .error e
    | .ok tools => send (buildMessagePayload r tools toolChoice)

/-- The only error `handleToolChoice` ever produces is the nil-function
message. -/
theorem handleToolChoice_error_eq (tc : ToolChoiceValue) (e : String)
    (h : handleToolChoice tc = .error e) : e = "tool choice function is nil" := by
  cases tc with
  | str s => simp [handleToolChoice] at h
  | tool t =>
    cases hf : t.Function with
    | none => simp [handleToolChoice, hf] at h; exact h.symm
    | some f => simp [handleToolChoice, hf] at h
  | other => simp [handleToolChoice] at h

/-- If some tool in the list has a nil `Function`, `handleTools` fails
with the nil-function error. -/
theorem handleTools_error_of_mem (tools : List llms.Tool) (t : llms.Tool)
    (hmem : t ∈ tools) (hnil : t.Function = none) :
    handleTools tools = .error "tool choice function is nil" := by
  induction tools with
  | nil => cases hmem
  | cons hd tl ih =>
    cases hhd : hd.Function with
    | none => simp [handleTools, hhd]
    | some f =>
      rcases List.mem_cons.mp hmem with heq | htl
      · rw [← heq] at hhd
        rw [hhd] at hnil
        cases hnil
      · simp [handleTools, hhd, ih htl]

deriving instance DecidableEq for Except

/-- A tool whose Go `Function` pointer is nil. -/
def toolNilFn : llms.Tool := { «Type» := "function", Function := none }

/-- A tool carrying a concrete function definition. -/
def toolWithFn : llms.Tool :=
  { «Type» := "function",
    Function := some { Name := "get_weather", Description := "weather",
                       Parameters := "\x7b\x7d" } }

/-- A request whose tool list contains a nil-function entry. -/
def reqNilTool : MessageRequest :=
  { Model := "m", Messages := [], System := "", Temperature := 0, MaxTokens := 0,
    TopP := 0, TopK := 0, Tools := [toolWithFn, toolNilFn],
    ToolChoice := .str "auto", StopWords := [], Stream := false }

/-- A request whose tool choice names the nil-function tool. -/
def reqNilChoice : MessageRequest :=
  { reqNilTool with Tools := [toolWithFn], ToolChoice := .tool toolNilFn }

/-- A request whose tool choice has some other dynamic type. -/
def reqOtherChoice : MessageRequest :=
  { reqNilTool with Tools := [], ToolChoice := .other }

/-- A transport stand-in that records, by its result, that it was
invoked. -/
def sendNever : messagePayload → Except String MessageResponsePayload :=
  fun _ => .error "transport invoked"

/-- C7: if any entry of the request's tool list has a nil `Function`,
`CreateMessage` returns the nil-function error (and hence a nil result),
and it does so for every transport `send` — the HTTP stage is never
reached. -/
theorem C7_CreateMessage_nil_tool (r : MessageRequest) (t : llms.Tool)
    (send : messagePayload → Except String MessageResponsePayload)
    (hmem : t ∈ r.Tools) (hnil : t.Function = none) :
    CreateMessage send r = .error "tool choice function is nil" := by
  have htools := handleTools_error_of_mem r.Tools t hmem hnil
  unfold CreateMessage
  cases htc : handleToolChoice r.ToolChoice with
  | error e => simp [handleToolChoice_error_eq _ _ htc]
  | ok tc => simp [htools]

/-- C7 witness: a request with one valid tool and one nil-function tool,
with a transport whose invocation would be visible in the result. -/
theorem C7_CreateMessage_nil_tool_witness :
    toolNilFn ∈ reqNilTool.Tools ∧ toolNilFn.Function = none ∧
    CreateMessage sendNever reqNilTool = .error "tool choice function is nil" :=
  ⟨by decide, by decide,
   C7_CreateMessage_nil_tool reqNilTool toolNilFn sendNever (by decide) (by decide)⟩

/-- C8: a named tool choice whose tool has a nil `Function` makes
`handleToolChoice` fail, and `CreateMessage` consequently fails with
that error for every transport, before any HTTP request; a string
choice becomes a `ToolChoice` tagged with that string; a named tool
carrying a function becomes a `ToolChoice` with the tool's type and the
function's name. -/
theorem C8_handleToolChoice_cases (t t2 : llms.Tool)
    (f : llms.FunctionDefinition) (s : String) (r : MessageRequest)
    (send : messagePayload → Except String MessageResponsePayload)
    (hnil : t.Function = none) (hr : r.ToolChoice = .tool t)
    (hf : t2.Function = some f) :
    handleToolChoice (.tool t) = .error "tool choice function is nil" ∧
    CreateMessage send r = .error "tool choice function is nil" ∧
    handleToolChoice (.str s) = .ok (some { «Type» := s, Name := "" }) ∧
    handleToolChoice (.tool t2)
      = .ok (some { «Type» := t2.«Type», Name := f.Name }) := by
  refine ⟨by simp [handleToolChoice, hnil], ?_, rfl, by simp [handleToolChoice, hf]⟩
  unfold CreateMessage
  rw [hr]
  simp [handleToolChoice, hnil]

/-- C8 witness: a request whose tool choice names the nil-function tool,
next to a string choice and a named tool with a function. -/
theorem C8_handleToolChoice_cases_witness :
    (toolNilFn.Function = none ∧ reqNilChoice.ToolChoice = .tool toolNilFn ∧
     toolWithFn.Function = some { Name := "get_weather", Description := "weather",
                                  Parameters := "\x7b\x7d" }) ∧
    (handleToolChoice (.tool toolNilFn) = .error "tool choice function is nil" ∧
     CreateMessage sendNever reqNilChoice = .error "tool choice function is nil" ∧
     handleToolChoice (.str "auto") = .ok (some { «Type» := "auto", Name := "" }) ∧
     handleToolChoice (.tool toolWithFn)
       = .ok (some { «Type» := toolWithFn.«Type», Name := "get_weather" })) :=
  ⟨⟨by decide, by decide, by decide⟩,
   C8_handleToolChoice_cases toolNilFn toolWithFn
     { Name := "get_weather", Description := "weather", Parameters := "\x7b\x7d" }
     "auto" reqNilChoice sendNever (by decide) (by decide) (by decide)⟩

/-- C10: a tool-choice value of any dynamic type other than string or
`llms.Tool` makes `handleToolChoice` return no choice and no error, so
`CreateMessage` silently proceeds to the network stage with a payload
whose `ToolChoice` is the nil pointer — the serialized payload omits the
`tool_choice` field instead of reporting a validation failure. -/
theorem C10_other_choice_silently_dropped (r : MessageRequest)
    (ts : List Tool)
    (send : messagePayload → Except String MessageResponsePayload)
    (hother : r.ToolChoice = .other) (htools : handleTools r.Tools = .ok ts) :
    handleToolChoice r.ToolChoice = .ok none ∧
    CreateMessage send r = send (buildMessagePayload r ts none) ∧
    toolChoiceEmitted (buildMessagePayload r ts none) = false := by
  refine ⟨by simp [hother, handleToolChoice], ?_, rfl⟩
  unfold CreateMessage
  rw [hother]
  simp [handleToolChoice, htools]

/-- C10 witness: a request whose tool choice is of another dynamic type;
the transport is reached and its result is returned. -/
theorem C10_other_choice_silently_dropped_witness :
    (reqOtherChoice.ToolChoice = .other ∧
     handleTools reqOtherChoice.Tools = .ok []) ∧
    (handleToolChoice reqOtherChoice.ToolChoice = .ok none ∧
     CreateMessage sendNever reqOtherChoice
       = sendNever (buildMessagePayload reqOtherChoice [] none) ∧
     toolChoiceEmitted (buildMessagePayload reqOtherChoice [] none) = false) :=
  ⟨⟨by decide, by decide⟩,
   C10_other_choice_silently_dropped reqOtherChoice [] sendNever
     (by decide) (by decide)⟩

end Spec2Proof
